import Mathlib

/-
  Verification of the `datacls` type-augmentation engine (src/datacls.py).

  Shallow embedding of the module: a Python class is a record of its name,
  its ordered annotation list ( `__annotations__` ) and its class-attribute
  dictionary; Python values are the inductive `Value`; generated functions
  ( `__init__` , `__repr__` , `__eq__` , `__setattr__` ) are stored in the
  attribute dictionary as `Value` constructors carrying exactly the data the
  source bakes into them at generation time.  Exceptions are modelled with
  `Except PyErr`.
-/

/-- One statement of a synthesized `__init__` body:
`bypassWrite f a` models the generated line `object.__setattr__(self, "f", a)`
(a write that bypasses the class's `__setattr__` ), and `callPostInitStmt`
models the generated line `self.__post_init__()` . -/
inductive InitStmt : Type where
  | bypassWrite (field : String) (argName : String)
  | callPostInitStmt
deriving Repr, DecidableEq

/-- Python runtime values, restricted to the fragment this module manipulates.
`vprop target` is a `property` object whose getter reads attribute `target`
(the engine only installs `property(getter)` with a fixed attribute name);
`vreg entries` is the `_fields` registry dict mapping a field name to its
type hint and its default value (the flattened `_FieldsDict` );
`vinitFn params body` is a synthesized `__init__` (parameter list with the
default expressions already evaluated, plus the statement list of its body);
`vreprFn` , `veqFn` , `vsetattrFn` are the module-level functions `_repr` ,
`_eq` , `_setattr` that the engine installs, and `vuserFn` is an arbitrary
user-defined method such as `__post_init__` . -/
inductive Value : Type where
  | vint (n : Int)
  | vstr (s : String)
  | vbool (b : Bool)
  | vnone
  | vprop (target : String)
  | vreg (entries : List (String × String × Value))
  | vinitFn (params : List (String × Option Value)) (body : List InitStmt)
  | vreprFn
  | veqFn
  | vsetattrFn
  | vuserFn (name : String)
deriving Repr

/-- Python exceptions that the modelled code can raise.  `synthesisError` is
the compile-time-equivalent failure of `exec` on assembled source text whose
default expressions are not valid literals. -/
inductive PyErr : Type where
  | frozenError (msg : String)
  | typeError
  | attributeError (name : String)
  | nameError (name : String)
  | synthesisError
deriving Repr, DecidableEq

/-- A Python class: its `__name__` , its ordered `__annotations__`
(field name, type hint) and its class-attribute dictionary.  Python's
`__annotations__` is a dict, so its keys are unique; theorems that need
this state it as a hypothesis. -/
structure PyClass : Type where
  cname : String
  annots : List (String × String)
  attrs : List (String × Value)
deriving Repr

/-- An instance of a Python class: the class object plus the instance
`__dict__` . -/
structure Instance : Type where
  cls : PyClass
  idict : List (String × Value)
deriving Repr

/-- An arbitrary Python object, as far as `_eq` needs to see it: either an
instance of some class or a primitive value (which exposes no `fields`
attribute). -/
inductive PyObject : Type where
  | inst (i : Instance)
  | prim (v : Value)
deriving Repr

/-- First-match lookup in a Python-style dictionary represented as an
insertion-ordered association list. -/
def lookupStr {α : Type} : List (String × α) → String → Option α
  | [], _ => Option.none
  | (k, v) :: rest, key => if k == key then some v else lookupStr rest key

/-- Python dict assignment `d[k] = v` : overwrite in place (keeping the key's
original position) if the key is present, else append at the end. -/
def dictSet {α : Type} : List (String × α) → String → α → List (String × α)
  | [], k, v => [(k, v)]
  | (k', v') :: rest, k, v =>
      if k' == k then (k, v) :: rest else (k', v') :: dictSet rest k v

/-- Model of `setattr(cls, k, v)` : class-attribute assignment (classes are not
affected by the instance-level `__setattr__` the engine installs, since that
lives on the class, not on its metaclass). -/
def setattrCls (cls : PyClass) (k : String) (v : Value) : PyClass :=
  { cls with attrs := dictSet cls.attrs k v }

/-- Model of `getattr(cls, k, d)` : class-attribute read with a fallback default.
Only attributes of the class itself are modelled (the classes the engine
augments are plain `object` subclasses and the looked-up names are regular
field names and `__post_init__` , none of which `object` provides). -/
def getattrClsD (cls : PyClass) (k : String) (d : Value) : Value :=
  match lookupStr cls.attrs k with
  | some v => v
  | Option.none => d

/-- Python truthiness of a value (used by `if post_init:` ). -/
def pytruthy : Value → Bool
  | Value.vbool b => b
  | Value.vint n => n != 0
  | Value.vstr s => s != ""
  | Value.vnone => false
  | _ => true

/-- The test `arg_value['default_value'] == '_NotDefaultValue'` from
`_create_func_signature` : Python `==` against that string literal is true
exactly for an equal string. -/
def isSentinel : Value → Bool
  | Value.vstr s => s == "_NotDefaultValue"
  | _ => false

/-- Python `str()` of a value, as interpolated into generated source text by
`'{} = {}'.format(...)` .  Function, property and dict objects render as
their (non-literal) debug text; the exact text is irrelevant because no such
text parses back as a literal. -/
def pyStr : Value → String
  | Value.vint n => toString n
  | Value.vstr s => s
  | Value.vbool b => if b then "True" else "False"
  | Value.vnone => "None"
  | Value.vprop _ => "<property object>"
  | Value.vreg _ => "<fields dict>"
  | Value.vinitFn _ _ => "<function __init__>"
  | Value.vreprFn => "<function _repr>"
  | Value.veqFn => "<function _eq>"
  | Value.vsetattrFn => "<function _setattr>"
  | Value.vuserFn n => "<function " ++ n ++ ">"

/-- The numeric value of a decimal digit character, if it is one. -/
def digitVal (c : Char) : Option Nat :=
  if 48 ≤ c.toNat ∧ c.toNat ≤ 57 then some (c.toNat - 48) else Option.none

/-- Accumulate a decimal digit string into a number; fails on a non-digit. -/
def digitsValGo (acc : Nat) : List Char → Option Nat
  | [] => some acc
  | c :: rest =>
      match digitVal c with
      | some d => digitsValGo (acc * 10 + d) rest
      | Option.none => Option.none

/-- Parse the text of a (possibly negative) decimal integer literal. -/
def parseIntText (s : String) : Option Int :=
  match s.data with
  | [] => Option.none
  | c :: ds =>
      if c = '-' then
        match ds with
        | [] => Option.none
        | _ :: _ => (digitsValGo 0 ds).map (fun n => -(n : Int))
      else (digitsValGo 0 (c :: ds)).map (fun n => (n : Int))

/-- Evaluation of a default expression's source text when `exec` compiles the
assembled `def` (in `_create_fn` ): the closed literal fragment consists of
`True` , `False` , `None` and integer literals.  Any other text is not a
valid self-contained literal and makes the synthesized source fail to
compile or resolve (for example a bare string default renders without quotes
and a property object renders as `<property object at ...>` ). -/
def parseLiteral (s : String) : Option Value :=
  if s == "True" then some (Value.vbool true)
  else if s == "False" then some (Value.vbool false)
  else if s == "None" then some Value.vnone
  else
    match parseIntText s with
    | some n => some (Value.vint n)
    | Option.none => Option.none

/-- Python `==` on the values this engine stores in instance fields,
restricted to the primitive fragment: numbers, strings, booleans and `None`
compare structurally; comparisons that involve the runtime objects of the
model (functions, properties, registry dicts) are identity comparisons of
distinct objects and are modelled as unequal. -/
def pyValueEq : Value → Value → Bool
  | Value.vint a, Value.vint b => a == b
  | Value.vstr a, Value.vstr b => a == b
  | Value.vbool a, Value.vbool b => a == b
  | Value.vnone, Value.vnone => true
  | _, _ => false

/-- Model of `_read_annotations` : for every name in the class's `__annotations__` ,
in declaration order, record its type hint and `getattr(cls, name,
'_NotDefaultValue')` — the declared class-level default if present, else the
literal sentinel string. -/
def _read_annots (cls : PyClass) : List (String × String × Value) :=
  cls.annots.map
    (fun a => (a.1, a.2, getattrClsD cls a.1 (Value.vstr "_NotDefaultValue")))

/-- One iteration of `_create_func_signature` 's loop: append a no-default
argument (rendered as `name` ) to the `no_default_value` list, or a defaulted
argument (rendered as `name = str(default)` ) to the `with_default_value`
list.  A parameter is modelled as its name plus the optional default
expression text. -/
def sigStep (acc : List (String × Option String) × List (String × Option String))
    (arg : String × String × Value) :
    List (String × Option String) × List (String × Option String) :=
  if isSentinel arg.2.2 then
    (acc.1 ++ [(arg.1, (Option.none : Option String))], acc.2)
  else
    (acc.1, acc.2 ++ [(arg.1, some (pyStr arg.2.2))])

/-- Model of `_create_func_signature` : walk the registry once with `sigStep` , then
concatenate `no_default_value ++ with_default_value` — every no-default
parameter before every defaulted parameter, each group in declaration
order. -/
def _create_func_signature (args : List (String × String × Value)) :
    List (String × Option String) :=
  let acc := args.foldl sigStep ([], [])
  acc.1 ++ acc.2

/-- The `exec` step of `_create_fn` , restricted to the parameter list: each
default expression text is evaluated; the whole synthesis fails if any
default text is not a valid literal. -/
def parseParams : List (String × Option String) → Option (List (String × Option Value))
  | [] => some []
  | (n, Option.none) :: rest =>
      (parseParams rest).map (fun ps => (n, (Option.none : Option Value)) :: ps)
  | (n, some t) :: rest =>
      match parseLiteral t with
      | some v => (parseParams rest).map (fun ps => (n, some v) :: ps)
      | Option.none => Option.none

/-- The body that `_create_and_add_init` assembles: one interceptor-bypassing
write `object.__setattr__(self, "field", field)` per registry entry, in
registry (declaration) order, followed by `self.__post_init__()` when the
class declares the hook. -/
def initStmtsOf (fields : List (String × String × Value)) (post : Bool) :
    List InitStmt :=
  fields.map (fun fe => InitStmt.bypassWrite fe.1 fe.1)
    ++ (if post then [InitStmt.callPostInitStmt] else [])

/-- View a looked-up attribute as the fields registry dict, if it is one. -/
def asReg : Option Value → Option (List (String × String × Value))
  | some (Value.vreg fields) => some fields
  | _ => Option.none

/-- Model of `_create_and_add_init` : read the registry dict `cls._fields` (via
`asReg` ), build the `__init__` signature from it, assemble the body, and
synthesize the function via `_create_fn` / `exec` .  The `exec` step fails
when a rendered default is not a valid literal, and also when the assembled
body holds no statement at all — for a class with zero fields and no truthy
`__post_init__` the assembled source is `def __init__ (self, ):` followed
by a bare newline, a def with an empty suite, which raises
`IndentationError` .  On success the function is installed on the class. -/
def _create_and_add_init (post_init : Value) (cls : PyClass) : Except PyErr PyClass :=
  match asReg (lookupStr cls.attrs "_fields") with
  | some fields =>
      match parseParams (_create_func_signature fields) with
      | some params =>
          if (initStmtsOf fields (pytruthy post_init)).isEmpty then
            Except.error PyErr.synthesisError
          else
            Except.ok (setattrCls cls "__init__"
              (Value.vinitFn params (initStmtsOf fields (pytruthy post_init))))
      | Option.none => Except.error PyErr.synthesisError
  | Option.none => Except.error (PyErr.attributeError "_fields")

/-- Instance attribute read, `getattr(instance, name)` .  A `property` found
on the class is a data descriptor, so it takes precedence over the instance
`__dict__` ; its getter performs `getattr(self, target)` , modelled one level
deep (the engine only installs a property whose target `_fields` is a plain
class attribute).  Otherwise the instance `__dict__` wins over a plain class
attribute.  `Option.none` is an `AttributeError` . -/
def getattrInst (self : Instance) (name : String) : Option Value :=
  match lookupStr self.cls.attrs name with
  | some (Value.vprop target) =>
      match lookupStr self.idict target with
      | some v => some v
      | Option.none =>
          match lookupStr self.cls.attrs target with
          | some (Value.vprop _) => Option.none
          | some v => some v
          | Option.none => Option.none
  | some v =>
      match lookupStr self.idict name with
      | some w => some w
      | Option.none => some v
  | Option.none => lookupStr self.idict name

/-- The loop of `asdict` : for each registry entry, in order, read the
instance's current attribute value; a missing attribute raises
`AttributeError` . -/
def asdictGo (self : Instance) : List (String × String × Value) →
    Except PyErr (List (String × Value))
  | [] => Except.ok []
  | fe :: rest =>
      match getattrInst self fe.1 with
      | some v => (asdictGo self rest).map (fun tail => (fe.1, v) :: tail)
      | Option.none => Except.error (PyErr.attributeError fe.1)

/-- Model of `asdict` : iterate `instance.fields` (the registry, via the installed
property) and map every field name, in registry order, to the instance's
current value. -/
def asdict (self : Instance) : Except PyErr (List (String × Value)) :=
  match getattrInst self "fields" with
  | some (Value.vreg entries) => asdictGo self entries
  | some _ => Except.error PyErr.typeError
  | Option.none => Except.error (PyErr.attributeError "fields")

/-- Model of `asdict` applied to an arbitrary object, as `_eq` does to `other` : a
primitive exposes no `fields` attribute, so the read raises
`AttributeError` . -/
def asdictAny : PyObject → Except PyErr (List (String × Value))
  | PyObject.inst i => asdict i
  | PyObject.prim _ => Except.error (PyErr.attributeError "fields")

/-- Python `==` on two dicts: equal sizes and every key of the left dict
present in the right dict with an equal value. -/
def pyDictEq (d1 d2 : List (String × Value)) : Bool :=
  d1.length == d2.length &&
    d1.all (fun p =>
      match lookupStr d2 p.1 with
      | some w => pyValueEq p.2 w
      | Option.none => false)

/-- Model of `_eq` : `asdict(self) == asdict(other)` ; an exception from either
`asdict` propagates. -/
def _eq (self : Instance) (other : PyObject) : Except PyErr Bool := do
  let d1 ← asdict self
  let d2 ← asdictAny other
  pure (pyDictEq d1 d2)

/-- The loop of `_repr` : `ClassName(` then `field = value, ` for every
registry field in order (reading `self._fields` and the live values), then
`)` . -/
def reprGo (self : Instance) : List (String × String × Value) → String →
    Except PyErr String
  | [], acc => Except.ok (acc ++ ")")
  | fe :: rest, acc =>
      match getattrInst self fe.1 with
      | some v => reprGo self rest (acc ++ fe.1 ++ " = " ++ pyStr v ++ ", ")
      | Option.none => Except.error (PyErr.attributeError fe.1)

/-- Model of `_repr` : render the instance from `self._fields` and its live values. -/
def _repr (self : Instance) : Except PyErr String :=
  match getattrInst self "_fields" with
  | some (Value.vreg entries) => reprGo self entries (self.cls.cname ++ "(")
  | some _ => Except.error PyErr.typeError
  | Option.none => Except.error (PyErr.attributeError "_fields")

/-- The distinguished message `_setattr` raises with. -/
def frozenMsg : String := "Fields in datacls instance is frozen"

/-- Model of `_setattr` : the installed mutation interceptor; it raises `FrozenError`
unconditionally, whatever the attribute and value. -/
def _setattr (self : Instance) (field : String) (value : Value) :
    Except PyErr Instance :=
  Except.error (PyErr.frozenError frozenMsg)

/-- Ordinary attribute assignment `instance.name = v` : dispatch through the
class's `__setattr__` if the engine installed one (the interceptor), else
perform the default `object.__setattr__` write into the instance
`__dict__` . -/
def setattrInst (self : Instance) (name : String) (v : Value) :
    Except PyErr Instance :=
  match lookupStr self.cls.attrs "__setattr__" with
  | some Value.vsetattrFn => _setattr self name v
  | _ => Except.ok { self with idict := dictSet self.idict name v }

/-- Duplicate test on keyword-argument names. -/
def hasDupKeys : List String → Bool
  | [] => false
  | k :: rest => rest.contains k || hasDupKeys rest

/-- Core of Python call binding: walk the parameter list; the first
parameters take the positional arguments in order, the rest take a matching
keyword argument if one exists, else their default; a remaining parameter
with no default is a `TypeError` ( `Option.none` ). -/
def bindGo : List (String × Option Value) → List Value → List (String × Value) →
    Option (List (String × Value))
  | [], _, _ => some []
  | p :: ps, v :: vs, named =>
      (bindGo ps vs named).map (fun env => (p.1, v) :: env)
  | p :: ps, [], named =>
      match lookupStr named p.1 with
      | some v => (bindGo ps [] named).map (fun env => (p.1, v) :: env)
      | Option.none =>
          match p.2 with
          | some dv => (bindGo ps [] named).map (fun env => (p.1, dv) :: env)
          | Option.none => Option.none

/-- Python call binding for `f(self, *pos, **named)` against the synthesized
parameter list: rejects excess positional arguments, duplicate keywords,
unknown keywords and keywords that collide with a positional binding, then
binds each parameter. -/
def bindParams (params : List (String × Option Value)) (pos : List Value)
    (named : List (String × Value)) : Option (List (String × Value)) :=
  if params.length < pos.length then Option.none
  else if hasDupKeys (named.map Prod.fst) then Option.none
  else if named.any (fun p => !((params.map Prod.fst).contains p.1)) then Option.none
  else if named.any (fun p => ((params.take pos.length).map Prod.fst).contains p.1) then
    Option.none
  else bindGo params pos named

/-- Execute a synthesized `__init__` body: `bypassWrite f a` writes the bound
value of `a` into the instance `__dict__` directly ( `object.__setattr__` ,
bypassing any installed interceptor); `callPostInitStmt` invokes the
zero-argument hook (tracked as a flag).  An unbound name is a `NameError` . -/
def execStmts : List InitStmt → List (String × Value) → List (String × Value) →
    Bool → Option (List (String × Value) × Bool)
  | [], _, d, called => some (d, called)
  | InitStmt.bypassWrite f a :: rest, env, d, called =>
      match lookupStr env a with
      | some v => execStmts rest env (dictSet d f v) called
      | Option.none => Option.none
  | InitStmt.callPostInitStmt :: rest, env, d, _ => execStmts rest env d true

/-- Calling the class, `Cls(*pos, **named)` : allocate a fresh instance and
run the installed `__init__` on it.  Without an installed `__init__` the
default `object.__init__` accepts only the instance argument. -/
def callInit (cls : PyClass) (pos : List Value) (named : List (String × Value)) :
    Except PyErr (Instance × Bool) :=
  match lookupStr cls.attrs "__init__" with
  | some (Value.vinitFn params body) =>
      match bindParams params pos named with
      | some env =>
          match execStmts body env [] false with
          | some r => Except.ok ({ cls := cls, idict := r.1 }, r.2)
          | Option.none => Except.error (PyErr.nameError "init body")
      | Option.none => Except.error PyErr.typeError
  | some _ => Except.error PyErr.typeError
  | Option.none =>
      if pos.isEmpty && named.isEmpty then
        Except.ok ({ cls := cls, idict := [] }, false)
      else Except.error PyErr.typeError

/-- The first two steps of `_make_datacls` : attach the registry `_fields`
built by `_read_annots` , then attach the `fields` property reading it. -/
def mkCls2 (cls : PyClass) : PyClass :=
  setattrCls (setattrCls cls "_fields" (Value.vreg (_read_annots cls)))
    "fields" (Value.vprop "_fields")

/-- Model of `_create_and_add_repr` : install the module-level `_repr` as the class's
`__repr__` . -/
def _create_and_add_repr (cls : PyClass) : PyClass :=
  setattrCls cls "__repr__" Value.vreprFn

/-- Model of `_create_and_add_eq` : install the module-level `_eq` as the class's
`__eq__` . -/
def _create_and_add_eq (cls : PyClass) : PyClass :=
  setattrCls cls "__eq__" Value.veqFn

/-- Model of `_make_frozen` : install the interceptor `_setattr` as the class's
`__setattr__` , making instances immutable. -/
def _make_frozen (cls : PyClass) : PyClass :=
  setattrCls cls "__setattr__" Value.vsetattrFn

def addReprStep (repr : Bool) (c : PyClass) : PyClass :=
  if repr then _create_and_add_repr c else c

def addEqStep (eq : Bool) (c : PyClass) : PyClass :=
  if eq then _create_and_add_eq c else c

def addFrozenStep (frozen : Bool) (c : PyClass) : PyClass :=
  if frozen then _make_frozen c else c

/-- The last three steps of `_make_datacls` : under their switches, install
`__repr__` , `__eq__` and — last — the mutation interceptor. -/
def addTail (repr eq frozen : Bool) (cls3 : PyClass) : PyClass :=
  addFrozenStep frozen (addEqStep eq (addReprStep repr cls3))

/-- Model of `_make_datacls` : attach the registry `_fields` and the `fields` property,
then — each under its own switch — synthesize and install `__init__`
(detecting `__post_init__` by `getattr(cls, '__post_init__', False)` first),
install `__repr__` , install `__eq__` , and finally install the mutation
interceptor as `__setattr__` . -/
def _make_datacls (cls : PyClass) (init repr eq frozen : Bool) :
    Except PyErr PyClass :=
  match (if init then
          _create_and_add_init
            (getattrClsD (mkCls2 cls) "__post_init__" (Value.vbool false)) (mkCls2 cls)
         else Except.ok (mkCls2 cls)) with
  | Except.error e => Except.error e
  | Except.ok cls3 => Except.ok (addTail repr eq frozen cls3)

/-- The two shapes `datacls` can return: the augmented class (direct call) or
the deferred wrapper (call with no class). -/
inductive DataclsResult : Type where
  | applied (r : Except PyErr PyClass)
  | wrapper (w : PyClass → Except PyErr PyClass)

/-- Model of `datacls` : direct decorator call on a class, or — when called without a
class — a wrapper that performs the same augmentation later. -/
def datacls (cls : Option PyClass) (init repr eq frozen : Bool) : DataclsResult :=
  match cls with
  | Option.none =>
      DataclsResult.wrapper (fun c => _make_datacls c init repr eq frozen)
  | some c => DataclsResult.applied (_make_datacls c init repr eq frozen)

/-- The field names of a class's installed registry. -/
def registryNames (cls : PyClass) : List String :=
  match lookupStr cls.attrs "_fields" with
  | some (Value.vreg l) => l.map (fun e => e.1)
  | _ => []

/-- The attribute names the augmentation installs on a class. -/
def installedAttrNames : List String :=
  ["_fields", "fields", "__init__", "__repr__", "__eq__", "__setattr__"]

/-- Mapping equality as the specification words it: by key set plus per-key
value equality, insensitive to order — every entry of either mapping is
present in the other with an equal value. -/
def spec_mapping_eq (d1 d2 : List (String × Value)) : Bool :=
  d1.all (fun p =>
      match lookupStr d2 p.1 with
      | some w => pyValueEq p.2 w
      | Option.none => false)
    && d2.all (fun p =>
      match lookupStr d1 p.1 with
      | some w => pyValueEq p.2 w
      | Option.none => false)

/-- A plain two-field demonstration class, `class Point: x: int; y: int` . -/
def democls : PyClass :=
  { cname := "Point", annots := [("x", "int"), ("y", "int")], attrs := [] }

/-- The class `democls` after full augmentation with the default switches. -/
def demoAug : PyClass :=
  match _make_datacls democls true true true false with
  | Except.ok c => c
  | Except.error _ => democls

/-- The declaration `class T: a: int = 1; b: int` — a defaulted field declared before a
required one (claim C1's example shape). -/
def c1excls : PyClass :=
  { cname := "T", annots := [("a", "int"), ("b", "int")],
    attrs := [("a", Value.vint 1)] }

/-- The class `c1excls` after full augmentation with the default switches. -/
def c1exAug : PyClass :=
  match _make_datacls c1excls true true true false with
  | Except.ok c => c
  | Except.error _ => c1excls

/-- The declaration `class S: a: str = '_NotDefaultValue'` — a legitimate user default equal
to the sentinel literal. -/
def sentinelCls : PyClass :=
  { cname := "S", annots := [("a", "str")],
    attrs := [("a", Value.vstr "_NotDefaultValue")] }

/-- The declaration `class U: Name: str; Age: int` , to be frozen. -/
def frzcls : PyClass :=
  { cname := "U", annots := [("Name", "str"), ("Age", "int")], attrs := [] }

/-- The class `frzcls` after augmentation with `frozen=True` . -/
def frzAug : PyClass :=
  match _make_datacls frzcls true true true true with
  | Except.ok c => c
  | Except.error _ => frzcls

/-- A class declaring a field named `fields` , colliding with the accessor
the augmentation installs. -/
def cexC9 : PyClass := { cname := "W", annots := [("fields", "int")], attrs := [] }

/-- Whether an augmentation call succeeded. -/
def isOkB {α : Type} : Except PyErr α → Bool
  | Except.ok _ => true
  | Except.error _ => false

/-- Augment once; if that succeeds, report whether augmenting the result a
second time with the same switches succeeds. -/
def augTwiceOutcome (c : PyClass) (i r e f : Bool) : Option Bool :=
  match _make_datacls c i r e f with
  | Except.error _ => Option.none
  | Except.ok c1 => some (isOkB (_make_datacls c1 i r e f))

/-- Whether an equality comparison raises instead of producing a verdict. -/
def raisesB (x : Except PyErr Bool) : Bool :=
  match x with
  | Except.ok _ => false
  | Except.error _ => true

/- ===================== dictionary lemmas ===================== -/

theorem lookupStr_dictSet_self {α : Type} (d : List (String × α)) (k : String) (v : α) :
    lookupStr (dictSet d k v) k = some v := by
  induction d with
  | nil => simp [dictSet, lookupStr]
  | cons hd tl ih =>
      obtain ⟨k', v'⟩ := hd
      by_cases hk : k' = k
      · subst hk; simp [dictSet, lookupStr]
      · simp [dictSet, lookupStr, beq_iff_eq, hk, ih]

theorem lookupStr_dictSet_ne {α : Type} (d : List (String × α)) (k k' : String) (v : α)
    (h : k' ≠ k) : lookupStr (dictSet d k v) k' = lookupStr d k' := by
  have h2 : ¬ (k = k') := fun hh => h hh.symm
  induction d with
  | nil => simp [dictSet, lookupStr, beq_iff_eq, h2]
  | cons hd tl ih =>
      obtain ⟨k0, v0⟩ := hd
      by_cases hk : k0 = k
      · subst hk
        simp [dictSet, lookupStr, beq_iff_eq, h2]
      · simp [dictSet, lookupStr, beq_iff_eq, hk, ih]

theorem dictSet_same {α : Type} (d : List (String × α)) (k : String) (v : α)
    (h : lookupStr d k = some v) : dictSet d k v = d := by
  induction d with
  | nil => simp [lookupStr] at h
  | cons hd tl ih =>
      obtain ⟨k', v'⟩ := hd
      by_cases hk : k' = k
      · subst hk
        simp only [lookupStr, beq_self_eq_true, if_true, Option.some.injEq] at h
        simp [dictSet, h]
      · simp only [lookupStr, beq_iff_eq, if_neg hk] at h
        simp [dictSet, beq_iff_eq, hk, ih h]

theorem lookupStr_isSome_iff {α : Type} (d : List (String × α)) (k : String) :
    (lookupStr d k).isSome = true ↔ k ∈ d.map Prod.fst := by
  induction d with
  | nil => simp [lookupStr]
  | cons hd tl ih =>
      obtain ⟨k', v'⟩ := hd
      by_cases hk : k' = k
      · subst hk; simp [lookupStr]
      · simp [lookupStr, beq_iff_eq, hk, ih, Ne.symm hk]

theorem mem_of_lookupStr_eq_some {α : Type} (d : List (String × α)) (k : String) (v : α)
    (h : lookupStr d k = some v) : (k, v) ∈ d := by
  induction d with
  | nil => simp [lookupStr] at h
  | cons hd tl ih =>
      obtain ⟨k', v'⟩ := hd
      by_cases hk : k' = k
      · subst hk
        simp only [lookupStr, beq_self_eq_true, if_true, Option.some.injEq] at h
        simp [h]
      · simp only [lookupStr, beq_iff_eq, if_neg hk] at h
        exact List.mem_cons_of_mem _ (ih h)

theorem lookupStr_eq_some_of_mem {α : Type} (d : List (String × α)) (p : String × α)
    (hmem : p ∈ d) (hnd : (d.map Prod.fst).Nodup) : lookupStr d p.1 = some p.2 := by
  induction d with
  | nil => simp at hmem
  | cons hd tl ih =>
      obtain ⟨k', v'⟩ := hd
      rcases List.mem_cons.mp hmem with heq | htl
      · subst heq; simp [lookupStr]
      · have hk : k' ≠ p.1 := by
          intro hcontra
          have : p.1 ∈ tl.map Prod.fst := List.mem_map.mpr ⟨p, htl, rfl⟩
          rw [List.map_cons] at hnd
          exact (List.nodup_cons.mp hnd).1 (hcontra ▸ this)
        have hnd' : (tl.map Prod.fst).Nodup := by
          rw [List.map_cons] at hnd
          exact (List.nodup_cons.mp hnd).2
        simp [lookupStr, beq_iff_eq, hk, ih htl hnd']

theorem lookupStr_dictSet_isSome {α : Type} (d : List (String × α)) (k f : String)
    (v : α) (h : (lookupStr d f).isSome = true) :
    (lookupStr (dictSet d k v) f).isSome = true := by
  by_cases hk : f = k
  · subst hk; simp [lookupStr_dictSet_self]
  · rw [lookupStr_dictSet_ne _ _ _ _ hk]; exact h

/- ===================== signature-builder lemmas ===================== -/

theorem sigStep_foldl (args : List (String × String × Value)) :
    ∀ acc : List (String × Option String) × List (String × Option String),
      args.foldl sigStep acc =
        (acc.1 ++ (args.filter (fun a => isSentinel a.2.2)).map
            (fun a => (a.1, (Option.none : Option String))),
         acc.2 ++ (args.filter (fun a => !isSentinel a.2.2)).map
            (fun a => (a.1, some (pyStr a.2.2)))) := by
  induction args with
  | nil => intro acc; simp
  | cons a as ih =>
      intro acc
      cases hs : isSentinel a.2.2 with
      | true => simp [sigStep, hs, ih, List.filter_cons]
      | false => simp [sigStep, hs, ih, List.filter_cons]

/-- The partition shape of the generated signature: all no-default parameters
first, then all defaulted parameters, each group in declaration order. -/
theorem create_func_signature_char (args : List (String × String × Value)) :
    _create_func_signature args =
      (args.filter (fun a => isSentinel a.2.2)).map
          (fun a => (a.1, (Option.none : Option String)))
        ++ (args.filter (fun a => !isSentinel a.2.2)).map
          (fun a => (a.1, some (pyStr a.2.2))) := by
  simp [_create_func_signature, sigStep_foldl]

theorem parseParams_nil : parseParams [] = some [] := rfl

theorem parseParams_cons_none (n : String) (tl : List (String × Option String)) :
    parseParams ((n, Option.none) :: tl)
      = (parseParams tl).map (fun ps => (n, (Option.none : Option Value)) :: ps) := rfl

theorem parseParams_cons_some (n t : String) (tl : List (String × Option String)) :
    parseParams ((n, some t) :: tl)
      = match parseLiteral t with
        | some v => (parseParams tl).map (fun ps => (n, some v) :: ps)
        | Option.none => Option.none := rfl

theorem parseParams_names (sig : List (String × Option String))
    (params : List (String × Option Value)) (h : parseParams sig = some params) :
    params.map Prod.fst = sig.map Prod.fst := by
  induction sig generalizing params with
  | nil =>
      rw [parseParams_nil] at h
      injection h with h'
      subst h'; rfl
  | cons hd tl ih =>
      obtain ⟨n, od⟩ := hd
      cases od with
      | none =>
          rw [parseParams_cons_none] at h
          cases htl : parseParams tl with
          | none => rw [htl] at h; simp at h
          | some ps =>
              rw [htl, Option.map_some'] at h
              injection h with h'
              subst h'
              simp [ih ps htl]
      | some t =>
          rw [parseParams_cons_some] at h
          cases hp : parseLiteral t with
          | none =>
              simp only [hp] at h
              exact Option.noConfusion h
          | some v =>
              simp only [hp] at h
              cases htl : parseParams tl with
              | none => rw [htl] at h; simp at h
              | some ps =>
                  rw [htl, Option.map_some'] at h
                  injection h with h'
                  subst h'
                  simp [ih ps htl]

/- ===================== call-binding lemmas ===================== -/

theorem bindGo_nil (vs : List Value) (named : List (String × Value)) :
    bindGo [] vs named = some [] := rfl

theorem bindGo_cons_pos (p : String × Option Value) (ps : List (String × Option Value))
    (v : Value) (vs : List Value) (named : List (String × Value)) :
    bindGo (p :: ps) (v :: vs) named
      = (bindGo ps vs named).map (fun env => (p.1, v) :: env) := rfl

theorem bindGo_cons_kw (p : String × Option Value) (ps : List (String × Option Value))
    (named : List (String × Value)) :
    bindGo (p :: ps) [] named =
      match lookupStr named p.1 with
      | some v => (bindGo ps [] named).map (fun env => (p.1, v) :: env)
      | Option.none =>
          match p.2 with
          | some dv => (bindGo ps [] named).map (fun env => (p.1, dv) :: env)
          | Option.none => Option.none := rfl

theorem bindGo_names (ps : List (String × Option Value)) (vs : List Value)
    (named : List (String × Value)) (env : List (String × Value))
    (h : bindGo ps vs named = some env) : env.map Prod.fst = ps.map Prod.fst := by
  induction ps generalizing vs env with
  | nil =>
      rw [bindGo_nil] at h
      injection h with h'
      subst h'; rfl
  | cons p pr ih =>
      cases vs with
      | cons v vr =>
          rw [bindGo_cons_pos] at h
          cases hg : bindGo pr vr named with
          | none => rw [hg] at h; simp at h
          | some env' =>
              rw [hg, Option.map_some'] at h
              injection h with h'
              subst h'
              simp [ih vr env' hg]
      | nil =>
          rw [bindGo_cons_kw] at h
          cases hn : lookupStr named p.1 with
          | some v =>
              simp only [hn] at h
              cases hg : bindGo pr [] named with
              | none => rw [hg] at h; simp at h
              | some env' =>
                  rw [hg, Option.map_some'] at h
                  injection h with h'
                  subst h'
                  simp [ih [] env' hg]
          | none =>
              simp only [hn] at h
              cases hd : p.2 with
              | none =>
                  simp only [hd] at h
                  exact Option.noConfusion h
              | some dv =>
                  simp only [hd] at h
                  cases hg : bindGo pr [] named with
                  | none => rw [hg] at h; simp at h
                  | some env' =>
                      rw [hg, Option.map_some'] at h
                      injection h with h'
                      subst h'
                      simp [ih [] env' hg]

theorem bindParams_names (params : List (String × Option Value)) (pos : List Value)
    (named : List (String × Value)) (env : List (String × Value))
    (h : bindParams params pos named = some env) :
    env.map Prod.fst = params.map Prod.fst := by
  unfold bindParams at h
  split_ifs at h
  exact bindGo_names params pos named env h

/- ===================== init-body execution lemmas ===================== -/

theorem execStmts_lookup_isSome (body : List InitStmt) (env d0 : List (String × Value))
    (c0 : Bool) (d : List (String × Value)) (c : Bool) (f : String)
    (h : execStmts body env d0 c0 = some (d, c))
    (hf : (lookupStr d0 f).isSome = true) : (lookupStr d f).isSome = true := by
  induction body generalizing d0 c0 with
  | nil =>
      simp only [execStmts, Option.some.injEq, Prod.mk.injEq] at h
      rw [← h.1]; exact hf
  | cons s rest ih =>
      cases s with
      | bypassWrite fld a =>
          simp only [execStmts] at h
          cases hl : lookupStr env a with
          | none => rw [hl] at h; simp at h
          | some v =>
              rw [hl] at h
              exact ih (dictSet d0 fld v) c0 h (lookupStr_dictSet_isSome d0 fld f v hf)
      | callPostInitStmt =>
          simp only [execStmts] at h
          exact ih d0 true h hf

theorem execStmts_initStmts (fields : List (String × String × Value)) (post : Bool)
    (env d0 : List (String × Value)) (c0 : Bool) (d : List (String × Value)) (c : Bool)
    (h : execStmts (initStmtsOf fields post) env d0 c0 = some (d, c)) :
    (∀ fe ∈ fields, (lookupStr d fe.1).isSome = true) ∧ c = (post || c0) := by
  induction fields generalizing d0 c0 with
  | nil =>
      cases post with
      | true =>
          simp only [initStmtsOf, List.map_nil, List.nil_append, if_true,
            execStmts, Option.some.injEq, Prod.mk.injEq] at h
          obtain ⟨h1, h2⟩ := h
          subst h2
          exact ⟨by simp, by simp⟩
      | false =>
          simp only [initStmtsOf, List.map_nil, List.nil_append, if_false,
            execStmts, Option.some.injEq, Prod.mk.injEq] at h
          obtain ⟨h1, h2⟩ := h
          subst h2
          exact ⟨by simp, by simp⟩
  | cons fe fs ih =>
      have hbody : initStmtsOf (fe :: fs) post
          = InitStmt.bypassWrite fe.1 fe.1 :: initStmtsOf fs post := by
        simp [initStmtsOf]
      rw [hbody] at h
      simp only [execStmts] at h
      cases hl : lookupStr env fe.1 with
      | none => rw [hl] at h; simp at h
      | some v =>
          rw [hl] at h
          have hrec := ih (dictSet d0 fe.1 v) c0 h
          refine ⟨?_, hrec.2⟩
          intro g hg
          rcases List.mem_cons.mp hg with heq | htl
          · subst heq
            exact execStmts_lookup_isSome _ env _ c0 d c g.1 h
              (by simp [lookupStr_dictSet_self])
          · exact hrec.1 g htl

/- ===================== augmentation-pipeline lemmas ===================== -/

theorem lookupStr_dictSet_ne' {α : Type} {k k' : String} (h : k' ≠ k)
    (d : List (String × α)) (v : α) :
    lookupStr (dictSet d k v) k' = lookupStr d k' :=
  lookupStr_dictSet_ne d k k' v h

theorem setattrCls_attrs (c : PyClass) (k : String) (v : Value) :
    (setattrCls c k v).attrs = dictSet c.attrs k v := rfl

theorem setattrCls_annots (c : PyClass) (k : String) (v : Value) :
    (setattrCls c k v).annots = c.annots := rfl

theorem setattrCls_cname (c : PyClass) (k : String) (v : Value) :
    (setattrCls c k v).cname = c.cname := rfl

theorem mkCls2_attrs (c : PyClass) : (mkCls2 c).attrs
    = dictSet (dictSet c.attrs "_fields" (Value.vreg (_read_annots c)))
        "fields" (Value.vprop "_fields") := rfl

theorem mkCls2_fields (c : PyClass) :
    lookupStr (mkCls2 c).attrs "_fields" = some (Value.vreg (_read_annots c)) := by
  rw [mkCls2_attrs, lookupStr_dictSet_ne' (show ("_fields" : String) ≠ "fields" from by decide),
    lookupStr_dictSet_self]

theorem mkCls2_prop (c : PyClass) :
    lookupStr (mkCls2 c).attrs "fields" = some (Value.vprop "_fields") := by
  rw [mkCls2_attrs, lookupStr_dictSet_self]

theorem mkCls2_other (c : PyClass) (k : String) (h1 : k ≠ "_fields") (h2 : k ≠ "fields") :
    lookupStr (mkCls2 c).attrs k = lookupStr c.attrs k := by
  rw [mkCls2_attrs, lookupStr_dictSet_ne' h2, lookupStr_dictSet_ne' h1]

theorem mkCls2_annots (c : PyClass) : (mkCls2 c).annots = c.annots := rfl

theorem mkCls2_cname (c : PyClass) : (mkCls2 c).cname = c.cname := rfl

theorem addTail_lookup_ne (r e f : Bool) (c3 : PyClass) (k : String)
    (h1 : k ≠ "__repr__") (h2 : k ≠ "__eq__") (h3 : k ≠ "__setattr__") :
    lookupStr (addTail r e f c3).attrs k = lookupStr c3.attrs k := by
  cases r <;> cases e <;> cases f <;>
    simp [addTail, addFrozenStep, addEqStep, addReprStep, _make_frozen, _create_and_add_eq, _create_and_add_repr, setattrCls_attrs, lookupStr_dictSet_ne' h1,
      lookupStr_dictSet_ne' h2, lookupStr_dictSet_ne' h3]

theorem addTail_annots (r e f : Bool) (c3 : PyClass) :
    (addTail r e f c3).annots = c3.annots := by
  cases r <;> cases e <;> cases f <;> simp [addTail, addFrozenStep, addEqStep, addReprStep, _make_frozen, _create_and_add_eq, _create_and_add_repr, setattrCls_annots]

theorem addTail_cname (r e f : Bool) (c3 : PyClass) :
    (addTail r e f c3).cname = c3.cname := by
  cases r <;> cases e <;> cases f <;> simp [addTail, addFrozenStep, addEqStep, addReprStep, _make_frozen, _create_and_add_eq, _create_and_add_repr, setattrCls_cname]

theorem addTail_frozen (r e : Bool) (c3 : PyClass) :
    lookupStr (addTail r e true c3).attrs "__setattr__" = some Value.vsetattrFn := by
  cases r <;> cases e <;>
    simp [addTail, addFrozenStep, addEqStep, addReprStep, _make_frozen, _create_and_add_eq, _create_and_add_repr, setattrCls_attrs, lookupStr_dictSet_self]

theorem addTail_repr (e f : Bool) (c3 : PyClass) :
    lookupStr (addTail true e f c3).attrs "__repr__" = some Value.vreprFn := by
  cases e <;> cases f <;>
    simp [addTail, addFrozenStep, addEqStep, addReprStep, _make_frozen, _create_and_add_eq, _create_and_add_repr, setattrCls_attrs, lookupStr_dictSet_self,
      lookupStr_dictSet_ne' (show ("__repr__" : String) ≠ "__eq__" from by decide),
      lookupStr_dictSet_ne' (show ("__repr__" : String) ≠ "__setattr__" from by decide)]

theorem addTail_eqattr (r f : Bool) (c3 : PyClass) :
    lookupStr (addTail r true f c3).attrs "__eq__" = some Value.veqFn := by
  cases r <;> cases f <;>
    simp [addTail, addFrozenStep, addEqStep, addReprStep, _make_frozen, _create_and_add_eq, _create_and_add_repr, setattrCls_attrs, lookupStr_dictSet_self,
      lookupStr_dictSet_ne' (show ("__eq__" : String) ≠ "__setattr__" from by decide)]

theorem asReg_eq_some (o : Option Value) (fields : List (String × String × Value))
    (h : asReg o = some fields) : o = some (Value.vreg fields) := by
  cases o with
  | none => simp [asReg] at h
  | some v => cases v <;> simp_all [asReg]

theorem create_init_char (post : Value) (cls cls' : PyClass)
    (h : _create_and_add_init post cls = Except.ok cls') :
    ∃ fields params,
      lookupStr cls.attrs "_fields" = some (Value.vreg fields)
      ∧ parseParams (_create_func_signature fields) = some params
      ∧ (initStmtsOf fields (pytruthy post)).isEmpty = false
      ∧ cls' = setattrCls cls "__init__"
          (Value.vinitFn params (initStmtsOf fields (pytruthy post))) := by
  unfold _create_and_add_init at h
  cases hf : asReg (lookupStr cls.attrs "_fields") with
  | none =>
      rw [hf] at h
      exact Except.noConfusion h
  | some fields =>
      rw [hf] at h
      have h2 : (match parseParams (_create_func_signature fields) with
          | some params =>
              if (initStmtsOf fields (pytruthy post)).isEmpty then
                Except.error PyErr.synthesisError
              else
                Except.ok (setattrCls cls "__init__"
                  (Value.vinitFn params (initStmtsOf fields (pytruthy post))))
          | Option.none => Except.error PyErr.synthesisError) = Except.ok cls' := h
      cases hp : parseParams (_create_func_signature fields) with
      | none =>
          rw [hp] at h2
          exact Except.noConfusion h2
      | some params =>
          rw [hp] at h2
          cases hni : (initStmtsOf fields (pytruthy post)).isEmpty with
          | true =>
              rw [hni] at h2
              exact Except.noConfusion h2
          | false =>
              rw [hni] at h2
              have h3 : Except.ok (setattrCls cls "__init__"
                  (Value.vinitFn params (initStmtsOf fields (pytruthy post))))
                  = Except.ok cls' := h2
              injection h3 with h4
              exact ⟨fields, params, asReg_eq_some _ _ hf, hp, hni, h4.symm⟩

theorem make_decomp (c : PyClass) (i r e f : Bool) (c' : PyClass)
    (h : _make_datacls c i r e f = Except.ok c') :
    ∃ cls3 : PyClass,
      ((i = false ∧ cls3 = mkCls2 c) ∨
        (i = true ∧ _create_and_add_init
            (getattrClsD (mkCls2 c) "__post_init__" (Value.vbool false)) (mkCls2 c)
          = Except.ok cls3))
      ∧ c' = addTail r e f cls3 := by
  unfold _make_datacls at h
  cases i with
  | false =>
      simp only [Bool.false_eq_true, if_false] at h
      injection h with h'
      exact ⟨mkCls2 c, Or.inl ⟨rfl, rfl⟩, h'.symm⟩
  | true =>
      simp only [if_true] at h
      cases hc : _create_and_add_init
          (getattrClsD (mkCls2 c) "__post_init__" (Value.vbool false)) (mkCls2 c) with
      | error err =>
          rw [hc] at h
          exact Except.noConfusion h
      | ok cls3 =>
          rw [hc] at h
          injection h with h'
          exact ⟨cls3, Or.inr ⟨rfl, rfl⟩, h'.symm⟩

theorem make_fields (c : PyClass) (i r e f : Bool) (c' : PyClass)
    (h : _make_datacls c i r e f = Except.ok c') :
    lookupStr c'.attrs "_fields" = some (Value.vreg (_read_annots c)) := by
  obtain ⟨cls3, hc3, hc'⟩ := make_decomp c i r e f c' h
  subst hc'
  rw [addTail_lookup_ne r e f cls3 "_fields" (by decide) (by decide) (by decide)]
  rcases hc3 with ⟨-, hcc⟩ | ⟨-, hinit⟩
  · subst hcc; exact mkCls2_fields c
  · obtain ⟨fields, params, hf, hp, -, hcc⟩ := create_init_char _ _ _ hinit
    subst hcc
    rw [setattrCls_attrs,
      lookupStr_dictSet_ne' (show ("_fields" : String) ≠ "__init__" from by decide)]
    exact mkCls2_fields c

theorem make_prop (c : PyClass) (i r e f : Bool) (c' : PyClass)
    (h : _make_datacls c i r e f = Except.ok c') :
    lookupStr c'.attrs "fields" = some (Value.vprop "_fields") := by
  obtain ⟨cls3, hc3, hc'⟩ := make_decomp c i r e f c' h
  subst hc'
  rw [addTail_lookup_ne r e f cls3 "fields" (by decide) (by decide) (by decide)]
  rcases hc3 with ⟨-, hcc⟩ | ⟨-, hinit⟩
  · subst hcc; exact mkCls2_prop c
  · obtain ⟨fields, params, hf, hp, -, hcc⟩ := create_init_char _ _ _ hinit
    subst hcc
    rw [setattrCls_attrs,
      lookupStr_dictSet_ne' (show ("fields" : String) ≠ "__init__" from by decide)]
    exact mkCls2_prop c

theorem make_annots (c : PyClass) (i r e f : Bool) (c' : PyClass)
    (h : _make_datacls c i r e f = Except.ok c') :
    c'.annots = c.annots ∧ c'.cname = c.cname := by
  obtain ⟨cls3, hc3, hc'⟩ := make_decomp c i r e f c' h
  subst hc'
  rcases hc3 with ⟨-, hcc⟩ | ⟨-, hinit⟩
  · subst hcc
    rw [addTail_annots, addTail_cname, mkCls2_annots, mkCls2_cname]
    exact ⟨rfl, rfl⟩
  · obtain ⟨fields, params, hf, hp, -, hcc⟩ := create_init_char _ _ _ hinit
    subst hcc
    rw [addTail_annots, addTail_cname, setattrCls_annots, setattrCls_cname,
      mkCls2_annots, mkCls2_cname]
    exact ⟨rfl, rfl⟩

theorem make_preserve (c : PyClass) (i r e f : Bool) (c' : PyClass)
    (h : _make_datacls c i r e f = Except.ok c') (k : String)
    (hk : ¬ k ∈ installedAttrNames) :
    lookupStr c'.attrs k = lookupStr c.attrs k := by
  simp only [installedAttrNames, List.mem_cons, List.not_mem_nil, or_false,
    not_or] at hk
  obtain ⟨hk1, hk2, hk3, hk4, hk5, hk6⟩ := hk
  obtain ⟨cls3, hc3, hc'⟩ := make_decomp c i r e f c' h
  subst hc'
  rw [addTail_lookup_ne r e f cls3 k hk4 hk5 hk6]
  rcases hc3 with ⟨-, hcc⟩ | ⟨-, hinit⟩
  · subst hcc; exact mkCls2_other c k hk1 hk2
  · obtain ⟨fields, params, hf, hp, -, hcc⟩ := create_init_char _ _ _ hinit
    subst hcc
    rw [setattrCls_attrs, lookupStr_dictSet_ne' hk3]
    exact mkCls2_other c k hk1 hk2

theorem make_init (c : PyClass) (r e f : Bool) (c' : PyClass)
    (h : _make_datacls c true r e f = Except.ok c') :
    ∃ params,
      parseParams (_create_func_signature (_read_annots c)) = some params
      ∧ (initStmtsOf (_read_annots c)
          (pytruthy (getattrClsD c "__post_init__" (Value.vbool false)))).isEmpty = false
      ∧ lookupStr c'.attrs "__init__" = some (Value.vinitFn params
          (initStmtsOf (_read_annots c)
            (pytruthy (getattrClsD c "__post_init__" (Value.vbool false))))) := by
  obtain ⟨cls3, hc3, hc'⟩ := make_decomp c true r e f c' h
  subst hc'
  rcases hc3 with ⟨hfalse, -⟩ | ⟨-, hinit⟩
  · exact Bool.noConfusion hfalse
  · obtain ⟨fields, params, hf, hp, hne, hcc⟩ := create_init_char _ _ _ hinit
    have hfe : fields = _read_annots c := by
      have h2 := mkCls2_fields c
      rw [hf] at h2
      injection h2 with h3
      injection h3
    have hpost : getattrClsD (mkCls2 c) "__post_init__" (Value.vbool false)
        = getattrClsD c "__post_init__" (Value.vbool false) := by
      unfold getattrClsD
      rw [mkCls2_other c "__post_init__" (by decide) (by decide)]
    subst hfe
    rw [hpost] at hne
    refine ⟨params, hp, hne, ?_⟩
    subst hcc
    rw [addTail_lookup_ne r e f _ "__init__" (by decide) (by decide) (by decide),
      setattrCls_attrs, lookupStr_dictSet_self, hpost]

theorem make_reprattr (c : PyClass) (i e f : Bool) (c' : PyClass)
    (h : _make_datacls c i true e f = Except.ok c') :
    lookupStr c'.attrs "__repr__" = some Value.vreprFn := by
  obtain ⟨cls3, hc3, hc'⟩ := make_decomp c i true e f c' h
  subst hc'
  exact addTail_repr e f cls3

theorem make_eqattr (c : PyClass) (i r f : Bool) (c' : PyClass)
    (h : _make_datacls c i r true f = Except.ok c') :
    lookupStr c'.attrs "__eq__" = some Value.veqFn := by
  obtain ⟨cls3, hc3, hc'⟩ := make_decomp c i r true f c' h
  subst hc'
  exact addTail_eqattr r f cls3

theorem make_setattrattr (c : PyClass) (i r e : Bool) (c' : PyClass)
    (h : _make_datacls c i r e true = Except.ok c') :
    lookupStr c'.attrs "__setattr__" = some Value.vsetattrFn := by
  obtain ⟨cls3, hc3, hc'⟩ := make_decomp c i r e true c' h
  subst hc'
  exact addTail_frozen r e cls3

theorem read_annots_names (c : PyClass) :
    (_read_annots c).map (fun fe => fe.1) = c.annots.map Prod.fst := by
  simp [_read_annots]

theorem registryNames_of_make (c : PyClass) (i r e f : Bool) (c' : PyClass)
    (h : _make_datacls c i r e f = Except.ok c') :
    registryNames c' = c.annots.map Prod.fst := by
  simp only [registryNames, make_fields c i r e f c' h]
  exact read_annots_names c

theorem setattrInst_frozen (inst : Instance)
    (hs : lookupStr inst.cls.attrs "__setattr__" = some Value.vsetattrFn)
    (n : String) (v : Value) :
    setattrInst inst n v = Except.error (PyErr.frozenError frozenMsg) := by
  simp only [setattrInst, hs]
  rfl

/- ===================== dict-equality equivalence ===================== -/

theorem pyValueEq_symm (a b : Value) : pyValueEq a b = pyValueEq b a := by
  cases a <;> cases b <;> simp [pyValueEq, beq_iff_eq, eq_comm]

theorem all_side_iff (d1 d2 : List (String × Value)) :
    (d1.all (fun p =>
      match lookupStr d2 p.1 with
      | some w => pyValueEq p.2 w
      | Option.none => false)) = true
    ↔ ∀ p ∈ d1, ∃ w, lookupStr d2 p.1 = some w ∧ pyValueEq p.2 w = true := by
  rw [List.all_eq_true]
  constructor
  · intro H p hp
    have h1 := H p hp
    cases hl : lookupStr d2 p.1 with
    | none => rw [hl] at h1; simp at h1
    | some w =>
        rw [hl] at h1
        exact ⟨w, rfl, h1⟩
  · intro H p hp
    obtain ⟨w, hw, he⟩ := H p hp
    rw [hw]
    exact he

theorem keys_sub_of_side (d1 d2 : List (String × Value))
    (H : ∀ p ∈ d1, ∃ w, lookupStr d2 p.1 = some w ∧ pyValueEq p.2 w = true) :
    ∀ k ∈ d1.map Prod.fst, k ∈ d2.map Prod.fst := by
  intro k hk
  obtain ⟨p, hp, hfst⟩ := List.mem_map.mp hk
  obtain ⟨w, hw, -⟩ := H p hp
  subst hfst
  exact (lookupStr_isSome_iff d2 p.1).mp (by rw [hw]; rfl)

theorem keys_rev_of_len (l1 l2 : List String) (h1 : l1.Nodup) (h2 : l2.Nodup)
    (hsub : ∀ k ∈ l1, k ∈ l2) (hlen : l1.length = l2.length) :
    ∀ k ∈ l2, k ∈ l1 := by
  intro k hk
  have hfs : l1.toFinset ⊆ l2.toFinset := by
    intro x hx
    exact List.mem_toFinset.mpr (hsub x (List.mem_toFinset.mp hx))
  have hcard : l2.toFinset.card ≤ l1.toFinset.card := by
    rw [List.toFinset_card_of_nodup h1, List.toFinset_card_of_nodup h2]
    omega
  have heq : l1.toFinset = l2.toFinset := Finset.eq_of_subset_of_card_le hfs hcard
  exact List.mem_toFinset.mp (heq ▸ List.mem_toFinset.mpr hk)

theorem pyDictEq_eq_spec (d1 d2 : List (String × Value))
    (h1 : (d1.map Prod.fst).Nodup) (h2 : (d2.map Prod.fst).Nodup) :
    pyDictEq d1 d2 = spec_mapping_eq d1 d2 := by
  have hiff : pyDictEq d1 d2 = true ↔ spec_mapping_eq d1 d2 = true := by
    unfold pyDictEq spec_mapping_eq
    rw [Bool.and_eq_true, Bool.and_eq_true, all_side_iff, all_side_iff, beq_iff_eq]
    constructor
    · rintro ⟨hlen, hL⟩
      refine ⟨hL, ?_⟩
      intro p hp
      have hsub := keys_sub_of_side d1 d2 hL
      have hk1 : p.1 ∈ d1.map Prod.fst :=
        keys_rev_of_len (d1.map Prod.fst) (d2.map Prod.fst) h1 h2 hsub
          (by simp [hlen]) p.1 (List.mem_map.mpr ⟨p, hp, rfl⟩)
      obtain ⟨w, hw⟩ : ∃ w, lookupStr d1 p.1 = some w := by
        have hsome := (lookupStr_isSome_iff d1 p.1).mpr hk1
        cases hl : lookupStr d1 p.1 with
        | none => rw [hl] at hsome; simp at hsome
        | some w => exact ⟨w, rfl⟩
      have hmem : (p.1, w) ∈ d1 := mem_of_lookupStr_eq_some d1 p.1 w hw
      obtain ⟨u, hu, hvu⟩ := hL (p.1, w) hmem
      have hp2 : lookupStr d2 p.1 = some p.2 := lookupStr_eq_some_of_mem d2 p hp h2
      rw [hp2] at hu
      injection hu with hu'
      subst hu'
      refine ⟨w, hw, ?_⟩
      rw [pyValueEq_symm]
      exact hvu
    · rintro ⟨hL, hR⟩
      refine ⟨?_, hL⟩
      have s12 := keys_sub_of_side d1 d2 hL
      have s21 := keys_sub_of_side d2 d1 hR
      have c1 : (d1.map Prod.fst).toFinset ⊆ (d2.map Prod.fst).toFinset := by
        intro x hx
        exact List.mem_toFinset.mpr (s12 x (List.mem_toFinset.mp hx))
      have c2 : (d2.map Prod.fst).toFinset ⊆ (d1.map Prod.fst).toFinset := by
        intro x hx
        exact List.mem_toFinset.mpr (s21 x (List.mem_toFinset.mp hx))
      have heq : (d1.map Prod.fst).toFinset = (d2.map Prod.fst).toFinset :=
        Finset.Subset.antisymm c1 c2
      have lc1 : (d1.map Prod.fst).toFinset.card = d1.length := by
        rw [List.toFinset_card_of_nodup h1, List.length_map]
      have lc2 : (d2.map Prod.fst).toFinset.card = d2.length := by
        rw [List.toFinset_card_of_nodup h2, List.length_map]
      rw [← lc1, ← lc2, heq]
  cases ha : pyDictEq d1 d2 <;> cases hb : spec_mapping_eq d1 d2 <;> simp_all

/- ===================== asdict and equality lemmas ===================== -/

theorem asdictGo_char (self : Instance) (entries : List (String × String × Value))
    (d : List (String × Value)) (h : asdictGo self entries = Except.ok d) :
    d.map Prod.fst = entries.map (fun fe => fe.1)
    ∧ ∀ p ∈ d, getattrInst self p.1 = some p.2 := by
  induction entries generalizing d with
  | nil =>
      simp only [asdictGo] at h
      injection h with h'
      subst h'
      exact ⟨rfl, by simp⟩
  | cons fe rest ih =>
      simp only [asdictGo] at h
      cases hg : getattrInst self fe.1 with
      | none => rw [hg] at h; exact Except.noConfusion h
      | some v =>
          rw [hg] at h
          cases hr : asdictGo self rest with
          | error err => rw [hr] at h; exact Except.noConfusion h
          | ok tail =>
              rw [hr] at h
              have h2 : Except.ok ((fe.1, v) :: tail) = Except.ok d := h
              injection h2 with h3
              subst h3
              obtain ⟨ih1, ih2⟩ := ih tail hr
              refine ⟨by simp [ih1], ?_⟩
              intro p hp
              rcases List.mem_cons.mp hp with heq | htl
              · subst heq; exact hg
              · exact ih2 p htl

theorem asdict_of_fields (self : Instance) (entries : List (String × String × Value))
    (hf : getattrInst self "fields" = some (Value.vreg entries)) :
    asdict self = asdictGo self entries := by
  unfold asdict
  rw [hf]

theorem eq_of_asdicts (a : Instance) (b : PyObject) (d1 d2 : List (String × Value))
    (h1 : asdict a = Except.ok d1) (h2 : asdictAny b = Except.ok d2) :
    _eq a b = Except.ok (pyDictEq d1 d2) := by
  unfold _eq
  rw [h1, h2]
  rfl

/- ===================== constructor-call lemmas ===================== -/

theorem create_init_ok (post : Value) (cls : PyClass)
    (fields : List (String × String × Value)) (params : List (String × Option Value))
    (hf : lookupStr cls.attrs "_fields" = some (Value.vreg fields))
    (hp : parseParams (_create_func_signature fields) = some params)
    (hne : (initStmtsOf fields (pytruthy post)).isEmpty = false) :
    _create_and_add_init post cls = Except.ok (setattrCls cls "__init__"
      (Value.vinitFn params (initStmtsOf fields (pytruthy post)))) := by
  unfold _create_and_add_init
  rw [hf]
  change (match parseParams (_create_func_signature fields) with
    | some params =>
        if (initStmtsOf fields (pytruthy post)).isEmpty then
          Except.error PyErr.synthesisError
        else
          Except.ok (setattrCls cls "__init__"
            (Value.vinitFn params (initStmtsOf fields (pytruthy post))))
    | Option.none => Except.error PyErr.synthesisError) = _
  rw [hp, hne]
  rfl

theorem callInit_ok_inv (cls : PyClass) (params : List (String × Option Value))
    (body : List InitStmt)
    (hi : lookupStr cls.attrs "__init__" = some (Value.vinitFn params body))
    (pos : List Value) (named : List (String × Value)) (inst : Instance) (b : Bool)
    (hcall : callInit cls pos named = Except.ok (inst, b)) :
    ∃ env, bindParams params pos named = some env
      ∧ execStmts body env [] false = some (inst.idict, b)
      ∧ inst.cls = cls := by
  unfold callInit at hcall
  rw [hi] at hcall
  have h2 : (match bindParams params pos named with
    | some env =>
        match execStmts body env [] false with
        | some r => Except.ok (({ cls := cls, idict := r.1 } : Instance), r.2)
        | Option.none => Except.error (PyErr.nameError "init body")
    | Option.none => Except.error PyErr.typeError) = Except.ok (inst, b) := hcall
  cases hb : bindParams params pos named with
  | none => rw [hb] at h2; exact Except.noConfusion h2
  | some env =>
      rw [hb] at h2
      have h3 : (match execStmts body env [] false with
        | some r => Except.ok (({ cls := cls, idict := r.1 } : Instance), r.2)
        | Option.none => Except.error (PyErr.nameError "init body")) = Except.ok (inst, b) := h2
      cases hx : execStmts body env [] false with
      | none => rw [hx] at h3; exact Except.noConfusion h3
      | some r =>
          rw [hx] at h3
          injection h3 with h4
          have h5 : ({ cls := cls, idict := r.1 } : Instance) = inst := congrArg Prod.fst h4
          have h6 : r.2 = b := congrArg Prod.snd h4
          refine ⟨env, rfl, ?_, ?_⟩
          · rw [← h5, ← h6]; exact hx
          · rw [← h5]

/- ===================== further demonstration classes ===================== -/

/-- The declaration `class E:` with no declared fields. -/
def emptycls : PyClass := { cname := "E", annots := [], attrs := [] }

/-- The declaration `class EH:` with zero fields but a `__post_init__`
method. -/
def emptyhookcls : PyClass :=
  { cname := "EH", annots := [],
    attrs := [("__post_init__", Value.vuserFn "__post_init__")] }

/-- The class `emptyhookcls` after full augmentation with the default
switches. -/
def emptyhookAug : PyClass :=
  match _make_datacls emptyhookcls true true true false with
  | Except.ok c => c
  | Except.error _ => emptyhookcls

/-- The declaration `class P: n: int` with a `__post_init__` method. -/
def pstcls : PyClass :=
  { cname := "P", annots := [("n", "int")],
    attrs := [("__post_init__", Value.vuserFn "__post_init__")] }

/-- The class `pstcls` after full augmentation with the default switches. -/
def pstAug : PyClass :=
  match _make_datacls pstcls true true true false with
  | Except.ok c => c
  | Except.error _ => pstcls

/-- An augmented `Point` instance with live values `x = 1, y = 2` . -/
def pA : Instance :=
  { cls := demoAug, idict := [("x", Value.vint 1), ("y", Value.vint 2)] }

/-- A second instance with the same live values. -/
def pB : Instance :=
  { cls := demoAug, idict := [("x", Value.vint 1), ("y", Value.vint 2)] }

/-- An instance differing from `pA` in one field. -/
def pC : Instance :=
  { cls := demoAug, idict := [("x", Value.vint 1), ("y", Value.vint 3)] }

/-- An augmented `T` instance whose live values differ from the declared
defaults. -/
def qLive : Instance :=
  { cls := c1exAug, idict := [("a", Value.vint 5), ("b", Value.vint 7)] }

/-- The frozen instance `U("Antonio", 23)` as built by the generated
constructor. -/
def frzInst : Instance :=
  { cls := frzAug,
    idict := [("Name", Value.vstr "Antonio"), ("Age", Value.vint 23)] }

/- ===================== claim theorems ===================== -/

/-- C1: for every ordered field set, the generated constructor signature
lists all no-default fields before all defaulted fields, each group
preserving the fields' relative declaration order; and for `c1excls`
(declaring defaulted `a` before required `b` ), the signature is
`(b, a = 1)` and the call `T(b = 2)` succeeds, constructing the instance
with `a` bound to its declared default `1` — no required-parameter-after-
optional failure. -/
theorem C1_required_before_defaulted :
    (∀ args : List (String × String × Value),
      _create_func_signature args =
        (args.filter (fun a => isSentinel a.2.2)).map
            (fun a => (a.1, (Option.none : Option String)))
          ++ (args.filter (fun a => !isSentinel a.2.2)).map
            (fun a => (a.1, some (pyStr a.2.2))))
    ∧ _create_func_signature (_read_annots c1excls)
        = [("b", (Option.none : Option String)), ("a", some "1")]
    ∧ (match _make_datacls c1excls true true true false with
        | Except.ok c' => callInit c' [] [("b", Value.vint 2)]
        | Except.error e => Except.error e)
      = Except.ok
          ({ cls := c1exAug, idict := [("a", Value.vint 1), ("b", Value.vint 2)] },
            false) :=
  ⟨create_func_signature_char, rfl, rfl⟩

/-- C6 (failing input for the code bug): the field `a: str =
'_NotDefaultValue'` declares a legitimate default (the class attribute is
present), yet the signature builder classifies it as a no-default parameter,
because the sentinel is the literal string the default happens to equal —
the sentinel is not distinguishable from every legitimate default. -/
theorem C6_sentinel_code_bug :
    lookupStr sentinelCls.attrs "a" = some (Value.vstr "_NotDefaultValue")
    ∧ _read_annots sentinelCls = [("a", "str", Value.vstr "_NotDefaultValue")]
    ∧ _create_func_signature (_read_annots sentinelCls)
        = [("a", (Option.none : Option String))] :=
  ⟨rfl, rfl, rfl⟩

/-- C3: the generated equality returns true exactly when the two `asdict`
views are equal as mappings — equal key sets with per-key equal values,
insensitive to key order. -/
theorem C3_eq_is_mapping_eq (a : Instance) (b : PyObject)
    (d1 d2 : List (String × Value))
    (h1 : asdict a = Except.ok d1) (h2 : asdictAny b = Except.ok d2)
    (k1 : (d1.map Prod.fst).Nodup) (k2 : (d2.map Prod.fst).Nodup) :
    _eq a b = Except.ok (spec_mapping_eq d1 d2) := by
  rw [eq_of_asdicts a b d1 d2 h1 h2, pyDictEq_eq_spec d1 d2 k1 k2]

/-- Witness for C3 at concrete instances: equal field values compare equal,
a one-field difference compares unequal. -/
theorem C3_eq_is_mapping_eq_witness :
    asdict pA = Except.ok [("x", Value.vint 1), ("y", Value.vint 2)]
    ∧ asdictAny (PyObject.inst pB)
        = Except.ok [("x", Value.vint 1), ("y", Value.vint 2)]
    ∧ _eq pA (PyObject.inst pB) = Except.ok true
    ∧ _eq pA (PyObject.inst pC) = Except.ok false := by
  refine ⟨rfl, rfl, ?_, ?_⟩
  · exact C3_eq_is_mapping_eq pA (PyObject.inst pB)
      [("x", Value.vint 1), ("y", Value.vint 2)]
      [("x", Value.vint 1), ("y", Value.vint 2)] rfl rfl (by decide) (by decide)
  · exact C3_eq_is_mapping_eq pA (PyObject.inst pC)
      [("x", Value.vint 1), ("y", Value.vint 2)]
      [("x", Value.vint 1), ("y", Value.vint 3)] rfl rfl (by decide) (by decide)

/-- C5 (counterexample): comparing an augmented instance against the plain
integer `3` — a value with no `fields` view — raises `AttributeError`
instead of reporting "not equal". -/
theorem C5_counterexample :
    _eq pA (PyObject.prim (Value.vint 3))
        = Except.error (PyErr.attributeError "fields")
    ∧ raisesB (_eq pA (PyObject.prim (Value.vint 3))) = true :=
  ⟨rfl, rfl⟩

/-- C5 (amended): comparing an augmented instance against any value that
lacks a `fields` view raises an exception (the `AttributeError` from
`asdict` , or the instance's own `asdict` failure) — it never returns an
equality verdict. -/
theorem C5_incompatible_comparison_raises (self : Instance) (v : Value) :
    raisesB (_eq self (PyObject.prim v)) = true := by
  cases ha : asdict self with
  | error e =>
      unfold _eq
      rw [ha]
      rfl
  | ok d1 =>
      unfold _eq
      rw [ha]
      rfl

/-- C7: a successful `asdict` produces exactly the registry's field names,
in registry (declaration) order, each mapped to the instance's current
attribute value. -/
theorem C7_asdict_exact (inst : Instance) (entries : List (String × String × Value))
    (d : List (String × Value))
    (hf : getattrInst inst "fields" = some (Value.vreg entries))
    (h : asdict inst = Except.ok d) :
    d.map Prod.fst = entries.map (fun fe => fe.1)
    ∧ ∀ p ∈ d, getattrInst inst p.1 = some p.2 := by
  rw [asdict_of_fields inst entries hf] at h
  exact asdictGo_char inst entries d h

/-- Witness for C7: on an instance whose live values `a = 5, b = 7` differ
from the registry default `a = 1` , `asdict` lists both fields in
declaration order with the live values. -/
theorem C7_asdict_exact_witness :
    getattrInst qLive "fields" = some (Value.vreg
      [("a", "int", Value.vint 1), ("b", "int", Value.vstr "_NotDefaultValue")])
    ∧ asdict qLive = Except.ok [("a", Value.vint 5), ("b", Value.vint 7)]
    ∧ ([("a", Value.vint 5), ("b", Value.vint 7)] : List (String × Value)).map Prod.fst
        = ([("a", "int", Value.vint 1), ("b", "int", Value.vstr "_NotDefaultValue")]
            : List (String × String × Value)).map (fun fe => fe.1)
    ∧ ∀ p ∈ ([("a", Value.vint 5), ("b", Value.vint 7)] : List (String × Value)),
        getattrInst qLive p.1 = some p.2 :=
  ⟨rfl, rfl, (C7_asdict_exact qLive _ _ rfl rfl).1, (C7_asdict_exact qLive _ _ rfl rfl).2⟩

/-- C2: on a type augmented with `frozen=True` (and constructor generation),
every post-construction attribute assignment on an instance raises
`FrozenError` — whatever the name and value — while a successful
construction populates every registered field (the generated `__init__`
writes through `object.__setattr__` , bypassing the interceptor). -/
theorem C2_frozen_blocks_writes (c c' : PyClass) (r e : Bool)
    (h : _make_datacls c true r e true = Except.ok c') :
    (∀ dict n v, setattrInst { cls := c', idict := dict } n v
        = Except.error (PyErr.frozenError frozenMsg))
    ∧ (∀ pos named inst b, callInit c' pos named = Except.ok (inst, b) →
        ∀ n, n ∈ registryNames c' → (lookupStr inst.idict n).isSome = true) := by
  constructor
  · intro dict n v
    exact setattrInst_frozen _ (make_setattrattr c true r e c' h) n v
  · intro pos named inst b hcall n hn
    obtain ⟨params, hp, -, hinit⟩ := make_init c r e true c' h
    obtain ⟨env, hb, hx, hcls⟩ :=
      callInit_ok_inv c' params _ hinit pos named inst b hcall
    have hw := execStmts_initStmts (_read_annots c)
      (pytruthy (getattrClsD c "__post_init__" (Value.vbool false)))
      env [] false inst.idict b hx
    rw [registryNames_of_make c true r e true c' h] at hn
    obtain ⟨a, ha, hfa⟩ := List.mem_map.mp hn
    have hmem : (a.1, a.2, getattrClsD c a.1 (Value.vstr "_NotDefaultValue"))
        ∈ _read_annots c := List.mem_map.mpr ⟨a, ha, rfl⟩
    have hsome := hw.1 _ hmem
    rw [← hfa]
    exact hsome

/-- Witness for C2: the frozen `U` class constructs `U("Antonio", 23)`
successfully with both fields populated, and a later field write raises
`FrozenError` . -/
theorem C2_frozen_blocks_writes_witness :
    _make_datacls frzcls true true true true = Except.ok frzAug
    ∧ setattrInst frzInst "Age" (Value.vint 5)
        = Except.error (PyErr.frozenError frozenMsg)
    ∧ callInit frzAug [Value.vstr "Antonio", Value.vint 23] []
        = Except.ok (frzInst, false)
    ∧ ∀ n, n ∈ registryNames frzAug →
        (lookupStr ([("Name", Value.vstr "Antonio"), ("Age", Value.vint 23)]
          : List (String × Value)) n).isSome = true := by
  refine ⟨rfl,
    (C2_frozen_blocks_writes frzcls frzAug true true rfl).1 _ "Age" (Value.vint 5),
    rfl, ?_⟩
  intro n hn
  exact (C2_frozen_blocks_writes frzcls frzAug true true rfl).2
    [Value.vstr "Antonio", Value.vint 23] [] _ false rfl n hn

/-- C10: on a frozen type the interceptor replaces the type's generic
attribute setter ( `__setattr__` ), so every post-construction assignment —
including to a name that is not a registered field — raises `FrozenError` . -/
theorem C10_interceptor_rejects_all_names (c c' : PyClass) (i r e : Bool)
    (h : _make_datacls c i r e true = Except.ok c') :
    lookupStr c'.attrs "__setattr__" = some Value.vsetattrFn
    ∧ ∀ dict n v, ¬ n ∈ registryNames c' →
        setattrInst { cls := c', idict := dict } n v
          = Except.error (PyErr.frozenError frozenMsg) := by
  refine ⟨make_setattrattr c i r e c' h, ?_⟩
  intro dict n v hn
  exact setattrInst_frozen _ (make_setattrattr c i r e c' h) n v

/-- Witness for C10: setting the brand-new attribute `brand_new` (not a
declared field) on a frozen instance raises `FrozenError` . -/
theorem C10_interceptor_rejects_all_names_witness :
    _make_datacls frzcls true true true true = Except.ok frzAug
    ∧ ¬ "brand_new" ∈ registryNames frzAug
    ∧ setattrInst frzInst "brand_new" (Value.vint 1)
        = Except.error (PyErr.frozenError frozenMsg) :=
  ⟨rfl, by decide,
    (C10_interceptor_rejects_all_names frzcls frzAug true true true rfl).2
      _ "brand_new" (Value.vint 1) (by decide)⟩

/-- C4 (counterexample): a type with zero declared fields and no
post-construction hook does not get an initializer at all — the assembled
source is `def __init__ (self, ):` followed by a bare newline, a def with an
empty suite, so `exec` raises and the whole augmentation fails instead of
installing an initializer that takes only the instance parameter. -/
theorem C4_counterexample :
    emptycls.annots = []
    ∧ lookupStr emptycls.attrs "__post_init__" = Option.none
    ∧ _make_datacls emptycls true true true false
        = Except.error PyErr.synthesisError :=
  ⟨rfl, rfl, rfl⟩

/-- C4 (amended): whenever constructor generation succeeds, the initializer
body assigns every declared field in original declaration order through the
interceptor-bypassing write and ends with the zero-argument hook call
exactly when the class declares (a truthy) `__post_init__` ; a zero-field
class can only augment successfully when it declares the hook (an empty
suite fails synthesis — see the counterexample), and then its initializer
takes only the instance parameter and performs no assignments; executing
any successful construction invokes the hook exactly when it is declared. -/
theorem C4_init_structure (c c' : PyClass) (r e f : Bool)
    (h : _make_datacls c true r e f = Except.ok c') :
    ∃ params,
      parseParams (_create_func_signature (_read_annots c)) = some params
      ∧ lookupStr c'.attrs "__init__" = some (Value.vinitFn params
          ((_read_annots c).map (fun fe => InitStmt.bypassWrite fe.1 fe.1)
            ++ (if pytruthy (getattrClsD c "__post_init__" (Value.vbool false))
                then [InitStmt.callPostInitStmt] else [])))
      ∧ (c.annots = [] → params = []
          ∧ pytruthy (getattrClsD c "__post_init__" (Value.vbool false)) = true)
      ∧ (∀ pos named inst b, callInit c' pos named = Except.ok (inst, b) →
          b = pytruthy (getattrClsD c "__post_init__" (Value.vbool false))) := by
  obtain ⟨params, hp, hne, hinit⟩ := make_init c r e f c' h
  refine ⟨params, hp, hinit, ?_, ?_⟩
  · intro hann
    have hre : _read_annots c = [] := by simp [_read_annots, hann]
    constructor
    · rw [hre] at hp
      have hp2 : some ([] : List (String × Option Value)) = some params := hp
      injection hp2 with h'
      exact h'.symm
    · cases hpostv : pytruthy (getattrClsD c "__post_init__" (Value.vbool false)) with
      | true => rfl
      | false =>
          rw [hre, hpostv] at hne
          simp [initStmtsOf] at hne
  · intro pos named inst b hcall
    obtain ⟨env, hb, hx, -⟩ :=
      callInit_ok_inv c' params _ hinit pos named inst b hcall
    have hw := execStmts_initStmts (_read_annots c)
      (pytruthy (getattrClsD c "__post_init__" (Value.vbool false)))
      env [] false inst.idict b hx
    rw [hw.2]
    exact Bool.or_false _

/-- Witness for C4: the zero-field class `EH` , which declares
`__post_init__` , gets `__init__(self)` whose body is just the hook call,
and the class `P` declaring a field and `__post_init__` gets its field
write followed by the hook call, which a successful construction reports
as invoked. -/
theorem C4_init_structure_witness :
    (_make_datacls emptyhookcls true true true false = Except.ok emptyhookAug
      ∧ emptyhookcls.annots = [])
    ∧ (∃ params,
        parseParams (_create_func_signature (_read_annots emptyhookcls)) = some params
        ∧ lookupStr emptyhookAug.attrs "__init__" = some (Value.vinitFn params
            ((_read_annots emptyhookcls).map (fun fe => InitStmt.bypassWrite fe.1 fe.1)
              ++ (if pytruthy (getattrClsD emptyhookcls "__post_init__" (Value.vbool false))
                  then [InitStmt.callPostInitStmt] else [])))
        ∧ (emptyhookcls.annots = [] → params = []
            ∧ pytruthy (getattrClsD emptyhookcls "__post_init__" (Value.vbool false)) = true)
        ∧ (∀ pos named inst b, callInit emptyhookAug pos named = Except.ok (inst, b) →
            b = pytruthy (getattrClsD emptyhookcls "__post_init__" (Value.vbool false))))
    ∧ (∃ params,
        parseParams (_create_func_signature (_read_annots pstcls)) = some params
        ∧ lookupStr pstAug.attrs "__init__" = some (Value.vinitFn params
            ((_read_annots pstcls).map (fun fe => InitStmt.bypassWrite fe.1 fe.1)
              ++ (if pytruthy (getattrClsD pstcls "__post_init__" (Value.vbool false))
                  then [InitStmt.callPostInitStmt] else [])))
        ∧ (pstcls.annots = [] → params = []
            ∧ pytruthy (getattrClsD pstcls "__post_init__" (Value.vbool false)) = true)
        ∧ (∀ pos named inst b, callInit pstAug pos named = Except.ok (inst, b) →
            b = pytruthy (getattrClsD pstcls "__post_init__" (Value.vbool false)))) :=
  ⟨⟨rfl, rfl⟩, C4_init_structure emptyhookcls emptyhookAug true true false rfl,
    C4_init_structure pstcls pstAug true true false rfl⟩

/-- C8: the direct decorator call and the deferred-wrapper form perform the
same augmentation, and the augmentation mutates the given class in place —
the result keeps the class's name, its annotations, and every attribute
other than the six the engine installs. -/
theorem C8_dual_forms (c : PyClass) (i r e f : Bool) :
    datacls (some c) i r e f = DataclsResult.applied (_make_datacls c i r e f)
    ∧ (∀ w, datacls Option.none i r e f = DataclsResult.wrapper w
        → w c = _make_datacls c i r e f)
    ∧ (∀ c', _make_datacls c i r e f = Except.ok c' →
        c'.cname = c.cname ∧ c'.annots = c.annots
        ∧ ∀ k, ¬ k ∈ installedAttrNames →
            lookupStr c'.attrs k = lookupStr c.attrs k) := by
  refine ⟨rfl, ?_, ?_⟩
  · intro w hw
    unfold datacls at hw
    injection hw with h'
    exact (congrFun h' c).symm
  · intro c' h
    obtain ⟨ha, hc⟩ := make_annots c i r e f c' h
    exact ⟨hc, ha, fun k hk => make_preserve c i r e f c' h k hk⟩

/-- Witness for C8: applying the deferred wrapper to `democls` gives the
same result as the direct call, and an unrelated attribute name is
untouched by the augmentation. -/
theorem C8_dual_forms_witness :
    (match datacls Option.none true true true false with
      | DataclsResult.wrapper w => w democls
      | DataclsResult.applied r => r) = _make_datacls democls true true true false
    ∧ lookupStr demoAug.attrs "other_attr" = lookupStr democls.attrs "other_attr" := by
  refine ⟨?_, ?_⟩
  · exact (C8_dual_forms democls true true true false).2.1 _ rfl
  · exact ((C8_dual_forms democls true true true false).2.2 demoAug rfl).2.2
      "other_attr" (by decide)

/-- C9 (amended): when no declared field name collides with one of the six
attribute names the augmentation installs, augmenting an augmented class a
second time with the same switches returns the class in exactly the same
state — so construction, equality, rendering and freeze behavior are all
unchanged.  (A field named `fields` breaks this: see the counterexample.) -/
theorem C9_idempotent_no_collision (c c1 : PyClass) (i r e f : Bool)
    (hk : ∀ a ∈ c.annots, ¬ a.1 ∈ installedAttrNames)
    (h : _make_datacls c i r e f = Except.ok c1) :
    _make_datacls c1 i r e f = Except.ok c1 := by
  have hann := (make_annots c i r e f c1 h).1
  have hra : _read_annots c1 = _read_annots c := by
    unfold _read_annots
    rw [hann]
    apply List.map_congr_left
    intro a ha
    have hpres : lookupStr c1.attrs a.1 = lookupStr c.attrs a.1 :=
      make_preserve c i r e f c1 h a.1 (hk a ha)
    unfold getattrClsD
    rw [hpres]
  have hsetF : setattrCls c1 "_fields" (Value.vreg (_read_annots c1)) = c1 := by
    rw [hra]
    unfold setattrCls
    rw [dictSet_same c1.attrs "_fields" (Value.vreg (_read_annots c))
      (make_fields c i r e f c1 h)]
  have hmk : mkCls2 c1 = c1 := by
    unfold mkCls2
    rw [hsetF]
    unfold setattrCls
    rw [dictSet_same c1.attrs "fields" (Value.vprop "_fields")
      (make_prop c i r e f c1 h)]
  have hR : addReprStep r c1 = c1 := by
    cases r with
    | false => rfl
    | true =>
        show setattrCls c1 "__repr__" Value.vreprFn = c1
        unfold setattrCls
        rw [dictSet_same c1.attrs "__repr__" Value.vreprFn
          (make_reprattr c i e f c1 h)]
  have hE : addEqStep e c1 = c1 := by
    cases e with
    | false => rfl
    | true =>
        show setattrCls c1 "__eq__" Value.veqFn = c1
        unfold setattrCls
        rw [dictSet_same c1.attrs "__eq__" Value.veqFn
          (make_eqattr c i r f c1 h)]
  have hF : addFrozenStep f c1 = c1 := by
    cases f with
    | false => rfl
    | true =>
        show setattrCls c1 "__setattr__" Value.vsetattrFn = c1
        unfold setattrCls
        rw [dictSet_same c1.attrs "__setattr__" Value.vsetattrFn
          (make_setattrattr c i r e c1 h)]
  have haT : addTail r e f c1 = c1 := by
    unfold addTail
    rw [hR, hE, hF]
  cases i with
  | false =>
      show Except.ok (addTail r e f (mkCls2 c1)) = Except.ok c1
      rw [hmk, haT]
  | true =>
      show (match _create_and_add_init
          (getattrClsD (mkCls2 c1) "__post_init__" (Value.vbool false)) (mkCls2 c1) with
        | Except.error err => Except.error err
        | Except.ok cls3 => Except.ok (addTail r e f cls3)) = Except.ok c1
      rw [hmk]
      obtain ⟨params, hp, hne, hinit⟩ := make_init c r e f c1 h
      have hpost : getattrClsD c1 "__post_init__" (Value.vbool false)
          = getattrClsD c "__post_init__" (Value.vbool false) := by
        unfold getattrClsD
        rw [make_preserve c true r e f c1 h "__post_init__" (by decide)]
      have hne1 : (initStmtsOf (_read_annots c)
          (pytruthy (getattrClsD c1 "__post_init__" (Value.vbool false)))).isEmpty
            = false := by
        rw [hpost]
        exact hne
      have hset : setattrCls c1 "__init__" (Value.vinitFn params
          (initStmtsOf (_read_annots c)
            (pytruthy (getattrClsD c1 "__post_init__" (Value.vbool false))))) = c1 := by
        rw [hpost]
        unfold setattrCls
        rw [dictSet_same c1.attrs "__init__" _ hinit]
      have hcr : _create_and_add_init
          (getattrClsD c1 "__post_init__" (Value.vbool false)) c1 = Except.ok c1 := by
        rw [create_init_ok (getattrClsD c1 "__post_init__" (Value.vbool false)) c1
          (_read_annots c) params (make_fields c true r e f c1 h) hp hne1]
        rw [hset]
      rw [hcr]
      change Except.ok (addTail r e f c1) = Except.ok c1
      rw [haT]

/-- Witness for C9 (amended): the plain `Point` class augments to `demoAug`
and augmenting `demoAug` again returns it unchanged. -/
theorem C9_idempotent_no_collision_witness :
    _make_datacls democls true true true false = Except.ok demoAug
    ∧ _make_datacls demoAug true true true false = Except.ok demoAug :=
  ⟨rfl, C9_idempotent_no_collision democls demoAug true true true false
    (by decide) rfl⟩

/-- C9 (counterexample): for a class declaring a field named `fields` , the
first augmentation succeeds but the second fails outright (the installed
`fields` property is read back as that field's default, whose rendered text
is not a valid literal, so `__init__` synthesis raises) — observable
behavior is not unchanged. -/
theorem C9_counterexample :
    augTwiceOutcome cexC9 true true true false = some false := rfl
